import Mathlib

/-!
Verification of the event-to-task suggestion engine from
`src/events/task_suggestions.py` (class `EventAnalyzer` and function
`generate_task_suggestions`).

Modelling conventions:
* Text is modelled as lists of Unicode code points (`List Nat`); `.lower()`
  is ASCII lowercasing, matching the ASCII inputs used throughout.
* Python floats are modelled as rationals (`ℚ`); all constants appearing in
  the source (1.5, 1.3, 1.2, 0.5, ...) are short decimals and no claim
  depends on binary rounding of these values.
* `datetime` values are rationals measured in days, so that
  `timedelta(days = d)` is addition of `d` and `.total_seconds()/3600`
  is multiplication by 24 of a difference of day counts.
* Python's `int()` on the (always nonnegative) confidence and preparation
  values is `Int.floor`.
* The regular expressions of the category catalog come in four concrete
  shapes, each embedded with Python `re.findall` semantics (left-to-right
  non-overlapping scan, ordered alternation, greedy `.*` and `\s*`).
* The spaCy named-entity fields (`entities`, `matched_patterns`) of the
  classification result are not modelled: they do not influence the
  category, the confidence, or any generated suggestion.
-/

namespace OhTaskMe

/-! ### Text layer: code points, lowercasing, `\b` boundaries, substrings -/

/-- A Lean string as the list of its Unicode code points. -/
def strCodes (s : String) : List Nat := s.toList.map Char.toNat

/-- ASCII lowercasing of one code point (Python `str.lower` on ASCII text). -/
def lowerCode (c : Nat) : Nat := if 65 ≤ c ∧ c ≤ 90 then c + 32 else c

/-- A Lean string, lowercased, as code points (Python `s.lower()`). -/
def lowerStr (s : String) : List Nat := (strCodes s).map lowerCode

/-- Python regex `\w`: `[A-Za-z0-9_]`. -/
def isWordCode (c : Nat) : Bool :=
  (48 ≤ c && c ≤ 57) || (65 ≤ c && c ≤ 90) || (97 ≤ c && c ≤ 122) || c == 95

/-- Python regex `\s` on ASCII: space, tab, newline, carriage return,
vertical tab, form feed. -/
def isSpaceCode (c : Nat) : Bool :=
  c == 32 || c == 9 || c == 10 || c == 13 || c == 11 || c == 12

/-- Python `needle in haystack` (substring containment). -/
def containsSub (t w : List Nat) : Bool :=
  (List.range (t.length + 1)).any (fun i => w.isPrefixOf (t.drop i))

/-- Position `i` of `t` holds a word character (out of range counts as a
non-word position). -/
def wordishAt (t : List Nat) (i : Nat) : Bool :=
  i < t.length && isWordCode (t.getD i 0)

/-- Python regex `\b` at position `i`: exactly one of the two adjacent
positions is a word character. -/
def boundaryAt (t : List Nat) (i : Nat) : Bool :=
  (if i == 0 then false else wordishAt t (i - 1)) != wordishAt t i

/-! ### Regex engine for the catalog's four pattern shapes -/

/-- `\b w \b` matches at position `i` of `t` (whole-word occurrence). -/
def wordAt (t w : List Nat) (i : Nat) : Bool :=
  w.isPrefixOf (t.drop i) && boundaryAt t i && boundaryAt t (i + w.length)

/-- First alternative of an alternation group `\b(w1|w2|...)\b` that matches
at position `i` (Python alternation is ordered). -/
def firstWordAt (t : List Nat) (ws : List (List Nat)) (i : Nat) : Option (List Nat) :=
  ws.find? (fun w => wordAt t w i)

/-- End position of the last whole-word occurrence of any word of `ws`
starting at a position `≥ j` (the greedy `.*` hands the trailing group the
last possible occurrence). -/
def lastWordEndFrom (t : List Nat) (ws : List (List Nat)) (j : Nat) : Option Nat :=
  (List.range (t.length + 1)).foldl
    (fun acc p =>
      if j ≤ p then
        match firstWordAt t ws p with
        | some w => some (p + w.length)
        | none => acc
      else acc)
    none

/-- Attempt to match `\b(g1)\b` at position `i`; on success, the end of the
matched word. -/
def stepAlt (t : List Nat) (ws : List (List Nat)) (i : Nat) : Option Nat :=
  (firstWordAt t ws i).map (fun w => i + w.length)

/-- Attempt to match `\b(g1)\b.*\b(g2)\b` at position `i`; on success, the
end of the (greedy) match. -/
def stepSeq (t : List Nat) (ws1 ws2 : List (List Nat)) (i : Nat) : Option Nat :=
  match firstWordAt t ws1 i with
  | some w => lastWordEndFrom t ws2 (i + w.length)
  | none => none

/-- First index `≥ i` that does not hold a whitespace character (the greedy
`\s*`, which is deterministic here because every following literal starts
with a letter). -/
def skipWsAux (t : List Nat) : Nat → Nat → Nat
  | i, 0 => i
  | i, fuel + 1 =>
    if i < t.length && isSpaceCode (t.getD i 0) then skipWsAux t (i + 1) fuel else i

def skipWs (t : List Nat) (i : Nat) : Nat := skipWsAux t i t.length

/-- First alternative of a plain (boundary-free) literal group matching at
position `i`. -/
def firstLitAt (t : List Nat) (ws : List (List Nat)) (i : Nat) : Option (List Nat) :=
  ws.find? (fun w => w.isPrefixOf (t.drop i))

/-- First alternative of a literal group matching at position `i` and
followed by a `\b` boundary. -/
def firstLitBoundAt (t : List Nat) (ws : List (List Nat)) (i : Nat) : Option (List Nat) :=
  ws.find? (fun w => w.isPrefixOf (t.drop i) && boundaryAt t (i + w.length))

/-- Attempt to match `\bmid\s*(g1)\s*(g2)\b` at position `i`
(the `exam_study` pattern 4). -/
def stepMidChain (t : List Nat) (g1 g2 : List (List Nat)) (i : Nat) : Option Nat :=
  if boundaryAt t i && (strCodes "mid").isPrefixOf (t.drop i) then
    match firstLitAt t g1 (skipWs t (i + 3)) with
    | some w1 =>
      match firstLitBoundAt t g2 (skipWs t (skipWs t (i + 3) + w1.length)) with
      | some w2 => some (skipWs t (skipWs t (i + 3) + w1.length) + w2.length)
      | none => none
    | none => none
  else none

/-- Attempt to match `\b(g1)\s*(g2)\b` (or with `\s+` when `reqWs` is true)
at position `i` (the `exam_study` pattern 5 and the `travel` pattern 2). -/
def stepPairChain (t : List Nat) (g1 g2 : List (List Nat)) (reqWs : Bool) (i : Nat) :
    Option Nat :=
  if boundaryAt t i then
    match firstLitAt t g1 i with
    | some w1 =>
      if reqWs && (skipWs t (i + w1.length) == i + w1.length) then none
      else
        match firstLitBoundAt t g2 (skipWs t (i + w1.length)) with
        | some w2 => some (skipWs t (i + w1.length) + w2.length)
        | none => none
    | none => none
  else none

/-- `re.findall` match count: scan left to right, restarting after the end
of each match.  `fuel` dominates the number of scan steps. -/
def scanCountAux (step : Nat → Option Nat) : Nat → Nat → Nat
  | _, 0 => 0
  | i, fuel + 1 =>
    match step i with
    | some e => 1 + scanCountAux step (if i < e then e else i + 1) fuel
    | none => scanCountAux step (i + 1) fuel

def scanCount (step : Nat → Option Nat) (n : Nat) : Nat := scanCountAux step 0 (n + 1)

/-- One catalog regex, in one of the four shapes occurring in the source. -/
inductive EPat where
  | alt (ws : List String)
  | seq (ws1 ws2 : List String)
  | midChain (g1 g2 : List String)
  | pairChain (g1 g2 : List String) (reqWs : Bool)

/-- `len(re.findall(pattern, text))` for one catalog pattern. -/
def patCount (t : List Nat) : EPat → Nat
  | .alt ws => scanCount (stepAlt t (ws.map strCodes)) t.length
  | .seq ws1 ws2 => scanCount (stepSeq t (ws1.map strCodes) (ws2.map strCodes)) t.length
  | .midChain g1 g2 => scanCount (stepMidChain t (g1.map strCodes) (g2.map strCodes)) t.length
  | .pairChain g1 g2 r => scanCount (stepPairChain t (g1.map strCodes) (g2.map strCodes) r) t.length

/-! ### The category catalog (`EventAnalyzer.EVENT_CATEGORIES`)

Every template string in the source ends with the placeholder
`{event_title}`, so a template is stored as the text before the placeholder
and `.format(event_title=title)` is appending the title. -/

/-- One entry of a category's `tasks` list. -/
structure TaskTemplate where
  template : String
  complexity_multiplier : ℚ
  days_before : Option ℕ := none
  days_after : Option ℕ := none

/-- One value of the `EVENT_CATEGORIES` dictionary. -/
structure CategoryConfig where
  patterns : List EPat
  complexity_high : List String
  complexity_medium : List String
  complexity_low : List String
  base_prep_days : ℕ
  tasks : List TaskTemplate

def meetingConfig : CategoryConfig where
  patterns :=
    [ .alt ["meeting", "conference", "call", "discussion", "sync", "standup", "review", "presentation"],
      .seq ["client", "team", "board", "staff", "committee"] ["meeting", "call"],
      .seq ["zoom", "teams", "skype", "webex"] ["call", "meeting"] ]
  complexity_high := ["board", "client", "presentation", "conference", "annual"]
  complexity_medium := ["team", "review", "planning", "quarterly"]
  complexity_low := ["standup", "sync", "quick", "brief", "check-in"]
  base_prep_days := 2
  tasks :=
    [ ⟨"Review agenda and prepare talking points for ", 1, none, none⟩,
      ⟨"Gather relevant documents and materials for ", 4/5, none, none⟩,
      ⟨"Test technology setup for ", 3/10, none, none⟩,
      ⟨"Send reminder and confirmation for ", 1/5, none, none⟩,
      ⟨"Follow up with action items from ", 1/2, none, some 1⟩ ]

def examStudyConfig : CategoryConfig where
  patterns :=
    [ .alt ["exam", "test", "quiz", "assessment", "evaluation", "midterm", "final"],
      .seq ["study", "preparation", "review"] ["exam", "test"],
      .alt ["examination", "assessment"],
      .midChain ["semester", "term"] ["exam", "test", "assessment"],
      .pairChain ["semester", "term"] ["exam", "test", "assessment"] false ]
  complexity_high := ["final", "comprehensive", "board", "certification", "licensing"]
  complexity_medium := ["midterm", "unit", "module", "chapter"]
  complexity_low := ["quiz", "pop", "quick", "review"]
  base_prep_days := 7
  tasks :=
    [ ⟨"Create study schedule for ", 1, none, none⟩,
      ⟨"Review course materials and notes for ", 6/5, none, none⟩,
      ⟨"Practice problems and past papers for ", 1, none, none⟩,
      ⟨"Create summary notes and flashcards for ", 4/5, none, none⟩,
      ⟨"Final review session for ", 3/5, some 1, none⟩,
      ⟨"Gather exam materials and check requirements for ", 3/10, some 1, none⟩ ]

def travelConfig : CategoryConfig where
  patterns :=
    [ .alt ["trip", "travel", "flight", "journey", "vacation", "holiday", "tour"],
      .pairChain ["business", "work"] ["trip", "travel"] true,
      .seq ["conference", "seminar"] ["travel", "trip"] ]
  complexity_high := ["international", "business", "conference", "extended", "family"]
  complexity_medium := ["domestic", "weekend", "short", "personal"]
  complexity_low := ["day", "local", "nearby"]
  base_prep_days := 5
  tasks :=
    [ ⟨"Research and book transportation for ", 1, none, none⟩,
      ⟨"Arrange accommodation for ", 9/10, none, none⟩,
      ⟨"Create packing checklist for ", 3/5, none, none⟩,
      ⟨"Check weather and prepare appropriate clothing for ", 2/5, none, none⟩,
      ⟨"Arrange transportation to airport/station for ", 1/2, none, none⟩,
      ⟨"Check travel documents and requirements for ", 7/10, none, none⟩,
      ⟨"Pack essentials and final preparations for ", 3/10, some 1, none⟩ ]

def projectConfig : CategoryConfig where
  patterns :=
    [ .alt ["project", "deadline", "launch", "release", "deployment", "milestone"],
      .seq ["deliverable", "submission", "presentation"] ["due", "deadline"],
      .seq ["sprint", "iteration"] ["review", "demo"] ]
  complexity_high := ["major", "critical", "launch", "release", "final"]
  complexity_medium := ["milestone", "phase", "module", "component"]
  complexity_low := ["minor", "update", "patch", "quick"]
  base_prep_days := 10
  tasks :=
    [ ⟨"Break down project scope and create timeline for ", 1, none, none⟩,
      ⟨"Assign resources and responsibilities for ", 4/5, none, none⟩,
      ⟨"Set up project tracking and communication channels for ", 3/5, none, none⟩,
      ⟨"Create quality assurance and testing plan for ", 9/10, none, none⟩,
      ⟨"Prepare documentation and user guides for ", 7/10, none, none⟩,
      ⟨"Final review and testing before ", 4/5, some 2, none⟩,
      ⟨"Post-project review and documentation for ", 3/5, none, some 3⟩ ]

def presentationConfig : CategoryConfig where
  patterns :=
    [ .alt ["presentation", "pitch", "demo", "speech", "talk", "lecture"],
      .seq ["present", "presenting"] ["to", "at", "for"],
      .alt ["keynote", "workshop", "seminar"] ]
  complexity_high := ["keynote", "conference", "board", "client", "public"]
  complexity_medium := ["team", "departmental", "training", "workshop"]
  complexity_low := ["informal", "quick", "update", "brief"]
  base_prep_days := 5
  tasks :=
    [ ⟨"Research audience and tailor content for ", 1, none, none⟩,
      ⟨"Create presentation outline and structure for ", 9/10, none, none⟩,
      ⟨"Develop slides and visual materials for ", 11/10, none, none⟩,
      ⟨"Practice presentation delivery for ", 4/5, none, none⟩,
      ⟨"Prepare for Q&A and potential questions for ", 7/10, none, none⟩,
      ⟨"Test technical setup and backup plans for ", 2/5, some 1, none⟩,
      ⟨"Gather feedback and follow up after ", 3/10, none, some 1⟩ ]

def appointmentConfig : CategoryConfig where
  patterns :=
    [ .alt ["appointment", "consultation", "checkup", "visit", "interview"],
      .seq ["doctor", "dentist", "medical", "health"] ["appointment", "visit"],
      .seq ["job", "employment"] ["interview", "meeting"] ]
  complexity_high := ["job", "medical", "specialist", "important", "final"]
  complexity_medium := ["consultation", "interview", "checkup"]
  complexity_low := ["routine", "follow-up", "quick", "brief"]
  base_prep_days := 2
  tasks :=
    [ ⟨"Confirm appointment details and location for ", 3/10, none, none⟩,
      ⟨"Prepare necessary documents and information for ", 7/10, none, none⟩,
      ⟨"Research and prepare questions for ", 3/5, none, none⟩,
      ⟨"Plan transportation and allow extra time for ", 2/5, none, none⟩,
      ⟨"Follow up on outcomes and next steps from ", 2/5, none, some 1⟩ ]

def socialEventConfig : CategoryConfig where
  patterns :=
    [ .alt ["party", "celebration", "birthday", "anniversary", "wedding", "gathering"],
      .alt ["dinner", "lunch", "social", "hangout", "meetup"],
      .seq ["holiday", "festival", "cultural"] ["event", "celebration"] ]
  complexity_high := ["wedding", "anniversary", "major", "formal", "hosted"]
  complexity_medium := ["birthday", "celebration", "dinner", "gathering"]
  complexity_low := ["casual", "informal", "small", "simple"]
  base_prep_days := 3
  tasks :=
    [ ⟨"Plan guest list and send invitations for ", 4/5, none, none⟩,
      ⟨"Arrange venue and necessary reservations for ", 9/10, none, none⟩,
      ⟨"Plan menu, catering, or restaurant for ", 7/10, none, none⟩,
      ⟨"Choose appropriate outfit or attire for ", 3/10, none, none⟩,
      ⟨"Prepare gifts, cards, or contributions for ", 1/2, none, none⟩,
      ⟨"Send thank you messages after ", 1/5, none, some 1⟩ ]

/-- The `EVENT_CATEGORIES` dictionary, in insertion order (Python dicts
preserve insertion order, and `max` over the keys returns the first key
attaining the maximum). -/
def EVENT_CATEGORIES : List (String × CategoryConfig) :=
  [ ("meeting", meetingConfig),
    ("exam_study", examStudyConfig),
    ("travel", travelConfig),
    ("project", projectConfig),
    ("presentation", presentationConfig),
    ("appointment", appointmentConfig),
    ("social_event", socialEventConfig) ]

/-- The `category_keywords` dictionary of `classify_event_type` (strong
title bonus); every catalog category has an entry, so the
`if category in category_keywords` guard in the source is always taken. -/
def category_keywords : List (String × List String) :=
  [ ("exam_study", ["exam", "test", "quiz", "midterm", "final", "assessment"]),
    ("meeting", ["meeting", "conference", "call", "discussion"]),
    ("travel", ["trip", "travel", "flight", "vacation"]),
    ("project", ["project", "deadline", "launch", "release"]),
    ("presentation", ["presentation", "pitch", "demo", "speech"]),
    ("appointment", ["appointment", "consultation", "checkup"]),
    ("social_event", ["party", "celebration", "birthday", "wedding"]) ]

/-! ### Classifier scoring (`EventAnalyzer.classify_event_type`) -/

/-- The combined analysis text `f"{title} {description} {location}".lower()`
used by both the classifier and the complexity analyzer. -/
def analysisText (title description location : String) : List Nat :=
  lowerStr (title ++ " " ++ description ++ " " ++ location)

/-- Pattern-matching score: each pattern contributes
`len(matches) * (i + 1) * 10` where `i` is its index in the list. -/
def patternScore (t : List Nat) (ps : List EPat) : ℕ :=
  (ps.enum.map (fun ip => patCount t ip.2 * ((ip.1 + 1) * 10))).sum

/-- Title bonus: 50 points for each `category_keywords` entry of the
category occurring as a substring of the lowercased title. -/
def titleBonus (titleLower : List Nat) (cat : String) : ℕ :=
  match category_keywords.lookup cat with
  | some kws => 50 * (kws.filter (fun k => containsSub titleLower (strCodes k))).length
  | none => 0

/-- Complexity-factor bonus: +5 / +3 / +1 for each high / medium / low
complexity keyword of the category occurring as a substring of the text. -/
def complexityBonus (t : List Nat) (cfg : CategoryConfig) : ℕ :=
  5 * (cfg.complexity_high.filter (fun k => containsSub t (strCodes k))).length +
  3 * (cfg.complexity_medium.filter (fun k => containsSub t (strCodes k))).length +
  1 * (cfg.complexity_low.filter (fun k => containsSub t (strCodes k))).length

/-- Total score of one category for the given input. -/
def categoryScore (title description location : String) (nc : String × CategoryConfig) : ℕ :=
  patternScore (analysisText title description location) nc.2.patterns +
  titleBonus (lowerStr title) nc.1 +
  complexityBonus (analysisText title description location) nc.2

/-- The `category_scores` mapping, restricted to its `score` components. -/
def all_category_scores (title description location : String) : List (String × ℕ) :=
  EVENT_CATEGORIES.map (fun nc => (nc.1, categoryScore title description location nc))

/-- Python `max(keys, key=score)`: the first entry attaining the maximal
score. -/
def bestCategory : List (String × ℕ) → String × ℕ
  | [] => ("", 0)
  | x :: xs => xs.foldl (fun acc y => if y.2 > acc.2 then y else acc) x

/-- Result of `EventAnalyzer.classify_event_type` (without the spaCy
entity fields, which influence nothing). -/
structure ClassificationResult where
  type : String
  confidence : ℚ
  all_scores : List (String × ℕ)

/-- `confidence = (best_score / max(total_score, 1)) * 100 if total_score > 0
else 50`. -/
def rawConfidence (best total : ℕ) : ℚ :=
  if total > 0 then (best : ℚ) / ((max total 1 : ℕ) : ℚ) * 100 else 50

/-- `EventAnalyzer.classify_event_type`. -/
def classify_event_type (title description location : String) : ClassificationResult :=
  let scores := all_category_scores title description location
  let best := bestCategory scores
  let conf0 := rawConfidence best.2 (scores.map Prod.snd).sum
  let pair : String × ℚ := if conf0 < 30 then ("general", 50) else (best.1, conf0)
  ⟨pair.1, min pair.2 95, scores⟩

/-! ### Complexity analyzer (`EventAnalyzer.analyze_event_complexity`) -/

/-- Source list `high_complexity_words`. -/
def high_complexity_words : List String :=
  ["critical", "important", "major", "final", "board", "client", "public"]

/-- Source list `stakeholder_words`. -/
def stakeholder_words : List String :=
  ["team", "client", "board", "committee", "group", "department"]

/-- The location words checked by `analyze_event_complexity`. -/
def location_complexity_words : List String :=
  ["international", "airport", "conference center"]

/-- Result dictionary of `analyze_event_complexity`. -/
structure ComplexityResult where
  score : ℚ
  factors : List String
  category : String

/-- `EventAnalyzer._get_complexity_category`. -/
def get_complexity_category (score : ℚ) : String :=
  if score ≥ 2 then "high" else if score ≥ 13/10 then "medium" else "low"

/-- The high-priority keywords found in the text, in source order. -/
def highHits (text : List Nat) : List String :=
  high_complexity_words.filter (fun w => containsSub text (strCodes w))

/-- The number of stakeholder words found in the text. -/
def stakeholderCount (text : List Nat) : ℕ :=
  (stakeholder_words.filter (fun w => containsSub text (strCodes w))).length

/-- `EventAnalyzer.analyze_event_complexity`.  The duration branch is
embedded exactly as in the source: `if duration_hours > 4` is tested first
and the `elif duration_hours > 8` test is only reached when the first test
fails. -/
def analyze_event_complexity (title description location : String)
    (duration_hours : ℚ) : ComplexityResult :=
  let text := analysisText title description location
  let d2 : ℚ × List String :=
    if duration_hours > 4 then (1 * (3/2), ["long duration"])
    else if duration_hours > 8 then (1 * 2, ["very long duration"])
    else (1, [])
  let locHit := location_complexity_words.any
    (fun w => containsSub (lowerStr location) (strCodes w))
  let d3 : ℚ × List String :=
    if locHit then (d2.1 * (13/10), d2.2 ++ ["complex location"]) else d2
  let s4 : ℚ := (highHits text).foldl (fun s _ => s * (6/5)) d3.1
  let f4 := d3.2 ++ (highHits text).map (fun w => "high-priority keyword: " ++ w)
  let d5 : ℚ × List String :=
    if stakeholderCount text > 0 then
      (s4 * (1 + (1/10) * stakeholderCount text),
        f4 ++ ["multiple stakeholders (" ++ toString (stakeholderCount text) ++ ")"])
    else (s4, f4)
  ⟨min d5.1 3, d5.2, get_complexity_category d5.1⟩

/-! ### Task synthesizer (`generate_task_suggestions`) -/

/-- The event fields consumed by `generate_task_suggestions`; times are in
days. -/
structure Event where
  title : String
  description : String
  location : String
  start_time : ℚ
  end_time : ℚ

/-- One emitted suggestion dictionary (the `analysis_notes` field, a pure
formatting artifact, is omitted). -/
structure TaskSuggestion where
  description : String
  scheduled_time : ℚ
  relation : String
  confidence : ℤ
  category : String
  complexity_factor : ℚ

/-- Python truthiness of the `days_before` / `days_after` values
(`None` and `0` are falsy). -/
def truthy : Option ℕ → Bool
  | none => false
  | some n => n != 0

/-- `duration.total_seconds() / 3600` for times measured in days. -/
def event_duration_hours (e : Event) : ℚ := (e.end_time - e.start_time) * 24

/-- The classification computed inside `generate_task_suggestions`. -/
def event_classification (e : Event) : ClassificationResult :=
  classify_event_type e.title e.description e.location

/-- The complexity analysis computed inside `generate_task_suggestions`. -/
def event_complexity (e : Event) : ComplexityResult :=
  analyze_event_complexity e.title e.description e.location (event_duration_hours e)

/-- Dictionary membership test `event_type in EVENT_CATEGORIES`. -/
def isCatalogCategory (ty : String) : Bool :=
  (EVENT_CATEGORIES.find? (fun nc => nc.1 == ty)).isSome

/-- `event_type` after the `'appointment'` fallback for categories missing
from the catalog. -/
def resolved_event_type (e : Event) : String :=
  if isCatalogCategory (event_classification e).type then (event_classification e).type
  else "appointment"

/-- `EVENT_CATEGORIES[name]` (total, with a vacuous default that is never
reached for a resolved event type). -/
def getConfig (name : String) : CategoryConfig :=
  ((EVENT_CATEGORIES.find? (fun nc => nc.1 == name)).map Prod.snd).getD
    ⟨[], [], [], [], 0, []⟩

/-- `total_prep_days = int(base_prep_days * complexity['score'])` (the value
is nonnegative, so `int()` truncation is the floor). -/
def total_prep_days (e : Event) : ℤ :=
  ⌊((getConfig (resolved_event_type e)).base_prep_days : ℚ) * (event_complexity e).score⌋

/-- The suggestion dictionary built for one task template inside the loop of
`generate_task_suggestions`. -/
def mkSuggestion (e : Event) (tpl : TaskTemplate) : TaskSuggestion :=
  let sched : ℚ × String :=
    if truthy tpl.days_after then
      (e.end_time + (tpl.days_after.getD 0 : ℚ), "after")
    else if truthy tpl.days_before then
      (e.start_time - (tpl.days_before.getD 0 : ℚ), "before")
    else
      (e.start_time - (total_prep_days e : ℚ) * tpl.complexity_multiplier, "before")
  let base_confidence : ℚ := (event_classification e).confidence
  let base_confidence_normalized := base_confidence / 100
  let task_confidence0 := min (base_confidence_normalized * tpl.complexity_multiplier * 100) 95
  let task_confidence :=
    if (event_complexity e).category = "high" ∧ tpl.complexity_multiplier > 4/5 then
      min (task_confidence0 * (105/100)) 95
    else if (event_complexity e).category = "low" ∧ tpl.complexity_multiplier < 1/2 then
      min (task_confidence0 * (105/100)) 95
    else task_confidence0
  { description := tpl.template ++ e.title
    scheduled_time := sched.1
    relation := sched.2
    confidence := ⌊task_confidence⌋
    category := resolved_event_type e
    complexity_factor := tpl.complexity_multiplier }

/-- Ascending order on suggestions by `scheduled_time`
(`key=lambda x: x['scheduled_time']`). -/
def schedLE (a b : TaskSuggestion) : Prop := a.scheduled_time ≤ b.scheduled_time

instance : DecidableRel schedLE := fun a b =>
  inferInstanceAs (Decidable (a.scheduled_time ≤ b.scheduled_time))

instance : IsTotal TaskSuggestion schedLE := ⟨fun a b => le_total a.scheduled_time b.scheduled_time⟩

instance : IsTrans TaskSuggestion schedLE := ⟨fun _ _ _ hab hbc => le_trans hab hbc⟩

/-- `generate_task_suggestions`: filter the resolved category's templates by
the complexity threshold, build a suggestion for each survivor, and return
the list sorted ascending by scheduled time (Python `list.sort` is stable;
insertion sort with a `≤` relation is stable too). -/
def generate_task_suggestions (e : Event) : List TaskSuggestion :=
  let cfg := getConfig (resolved_event_type e)
  List.insertionSort schedLE
    (cfg.tasks.filterMap (fun tpl =>
      if tpl.complexity_multiplier * (event_complexity e).score < 1/2 then none
      else some (mkSuggestion e tpl)))

/-! ### Concrete inputs used by the spec's scenarios -/

/-- Scenario 3 of the spec: a 4-hour company holiday party (times in days:
4 hours = 1/6 day). -/
def partyEvent : Event := ⟨"Company holiday party", "", "", 0, 1/6⟩

/-- Scenario 2 of the spec: a 3-hour final-exam review (3 hours = 1/8 day). -/
def examEvent : Event := ⟨"Final exam review", "comprehensive final", "", 0, 1/8⟩

/-- The fifth `social_event` task template (kept at complexity 1.0 since
`0.5 * 1.0` is not below the threshold). -/
def giftTemplate : TaskTemplate := ⟨"Prepare gifts, cards, or contributions for ", 1/2, none, none⟩

/-- The `days_after` thank-you template of `social_event`. -/
def thankYouTemplate : TaskTemplate := ⟨"Send thank you messages after ", 1/5, none, some 1⟩

/-- Sanity property every catalog template enjoys: a nonnegative multiplier
and no literal-zero day offsets (so Python truthiness of `days_before` /
`days_after` coincides with being set). -/
def GoodTpl (tpl : TaskTemplate) : Prop :=
  0 ≤ tpl.complexity_multiplier ∧ tpl.days_after ≠ some 0 ∧ tpl.days_before ≠ some 0

/-! ### Helper lemmas -/

theorem rawConfidence_nonneg (b t : ℕ) : 0 ≤ rawConfidence b t := by
  unfold rawConfidence
  split
  · positivity
  · norm_num

theorem mem_generate_iff {e : Event} {s : TaskSuggestion} :
    s ∈ generate_task_suggestions e ↔
      ∃ tpl ∈ (getConfig (resolved_event_type e)).tasks,
        ¬ tpl.complexity_multiplier * (event_complexity e).score < 1/2 ∧
        mkSuggestion e tpl = s := by
  unfold generate_task_suggestions
  rw [(List.perm_insertionSort schedLE _).mem_iff, List.mem_filterMap]
  constructor
  · rintro ⟨tpl, htpl, hf⟩
    by_cases hc : tpl.complexity_multiplier * (event_complexity e).score < 1/2
    · rw [if_pos hc] at hf
      exact absurd hf (by simp)
    · rw [if_neg hc] at hf
      exact ⟨tpl, htpl, hc, Option.some.inj hf⟩
  · rintro ⟨tpl, htpl, hc, hf⟩
    exact ⟨tpl, htpl, by rw [if_neg hc, hf]⟩

theorem good_catalog : ∀ nc ∈ EVENT_CATEGORIES, ∀ tpl ∈ nc.2.tasks, GoodTpl tpl := by
  norm_num [EVENT_CATEGORIES, meetingConfig, examStudyConfig, travelConfig, projectConfig,
    presentationConfig, appointmentConfig, socialEventConfig, GoodTpl]
  all_goals simp

theorem good_getConfig (name : String) : ∀ tpl ∈ (getConfig name).tasks, GoodTpl tpl := by
  intro tpl htpl
  unfold getConfig at htpl
  cases hf : EVENT_CATEGORIES.find? (fun nc => nc.1 == name) with
  | none => rw [hf] at htpl; simp at htpl
  | some nc =>
    rw [hf] at htpl
    simp only [Option.map_some', Option.getD_some] at htpl
    exact good_catalog nc (List.mem_of_find?_eq_some hf) tpl htpl

theorem classify_confidence_bounds (t d l : String) :
    0 ≤ (classify_event_type t d l).confidence ∧
      (classify_event_type t d l).confidence ≤ 95 ∧
      ((classify_event_type t d l).confidence = 50 ∨
        30 ≤ (classify_event_type t d l).confidence) := by
  unfold classify_event_type
  dsimp only
  by_cases h : rawConfidence (bestCategory (all_category_scores t d l)).2
      ((all_category_scores t d l).map Prod.snd).sum < 30
  · rw [if_pos h]
    norm_num
  · rw [if_neg h]
    push_neg at h
    dsimp only
    exact ⟨le_min (rawConfidence_nonneg _ _) (by norm_num), min_le_right _ _,
      Or.inr (le_min h (by norm_num))⟩

theorem one_le_foldl_mul (l : List String) {a : ℚ} (h : 1 ≤ a) :
    1 ≤ l.foldl (fun s _ => s * (6/5)) a := by
  induction l generalizing a with
  | nil => exact h
  | cons x xs ih => exact ih (by nlinarith)

theorem one_le_mul_stake (s : ℚ) (n : ℕ) (h : 1 ≤ s) : 1 ≤ s * (1 + (1/10) * n) := by
  have hn : (0:ℚ) ≤ (n : ℚ) := Nat.cast_nonneg n
  nlinarith

theorem complexity_score_bounds (t d l : String) (dh : ℚ) :
    1 ≤ (analyze_event_complexity t d l dh).score ∧
      (analyze_event_complexity t d l dh).score ≤ 3 := by
  unfold analyze_event_complexity
  dsimp only
  generalize (location_complexity_words.any fun w => containsSub (lowerStr l) (strCodes w)) = locb
  generalize highHits (analysisText t d l) = hits
  generalize stakeholderCount (analysisText t d l) = n
  refine ⟨le_min ?_ (by norm_num), min_le_right _ _⟩
  split_ifs
  · exact one_le_mul_stake _ _ (one_le_foldl_mul _ (by norm_num))
  · exact one_le_mul_stake _ _ (one_le_foldl_mul _ (by norm_num))
  · exact one_le_mul_stake _ _ (one_le_foldl_mul _ (by norm_num))
  · exact one_le_mul_stake _ _ (one_le_foldl_mul _ (by norm_num))
  · exact one_le_mul_stake _ _ (one_le_foldl_mul _ (by norm_num))
  · exact one_le_mul_stake _ _ (one_le_foldl_mul _ (by norm_num))
  · exact one_le_foldl_mul _ (by norm_num)
  · exact one_le_foldl_mul _ (by norm_num)
  · exact one_le_foldl_mul _ (by norm_num)
  · exact one_le_foldl_mul _ (by norm_num)
  · exact one_le_foldl_mul _ (by norm_num)
  · exact one_le_foldl_mul _ (by norm_num)

theorem mkSuggestion_confidence_bounds (e : Event) (tpl : TaskTemplate)
    (hm : 0 ≤ tpl.complexity_multiplier) :
    0 ≤ (mkSuggestion e tpl).confidence ∧ (mkSuggestion e tpl).confidence ≤ 95 := by
  have hb : 0 ≤ (event_classification e).confidence :=
    (classify_confidence_bounds e.title e.description e.location).1
  unfold mkSuggestion
  dsimp only
  have h00 : 0 ≤ min ((event_classification e).confidence / 100 *
      tpl.complexity_multiplier * 100) 95 :=
    le_min (mul_nonneg (mul_nonneg (div_nonneg hb (by norm_num)) hm) (by norm_num)) (by norm_num)
  have h95 : min ((event_classification e).confidence / 100 *
      tpl.complexity_multiplier * 100) 95 ≤ 95 := min_le_right _ _
  have hboth : ∀ q : ℚ, 0 ≤ q → q ≤ 95 →
      0 ≤ (⌊q⌋ : ℤ) ∧ (⌊q⌋ : ℤ) ≤ 95 := by
    intro q h0 h1
    refine ⟨Int.floor_nonneg.mpr h0, ?_⟩
    calc (⌊q⌋ : ℤ) ≤ ⌊(95:ℚ)⌋ := Int.floor_le_floor h1
    _ = 95 := by norm_num
  split_ifs
  · exact hboth _ (le_min (mul_nonneg h00 (by norm_num)) (by norm_num)) (min_le_right _ _)
  · exact hboth _ (le_min (mul_nonneg h00 (by norm_num)) (by norm_num)) (min_le_right _ _)
  · exact hboth _ h00 h95

/-- The seven catalog keys. -/
def catalogKeys : List String :=
  ["meeting", "exam_study", "travel", "project", "presentation", "appointment", "social_event"]

theorem resolved_mem (e : Event) : resolved_event_type e ∈ catalogKeys := by
  unfold resolved_event_type
  generalize (event_classification e).type = ty
  split
  case isTrue h =>
    unfold isCatalogCategory at h
    rw [Option.isSome_iff_exists] at h
    obtain ⟨nc, hf⟩ := h
    have h1 : nc.1 = ty := by
      have := List.find?_some hf
      simpa using this
    have h2 : nc ∈ EVENT_CATEGORIES := List.mem_of_find?_eq_some hf
    have h3 : nc.1 ∈ catalogKeys := by
      have hall : ∀ x ∈ EVENT_CATEGORIES, x.1 ∈ catalogKeys := by decide
      exact hall nc h2
    rwa [← h1]
  case isFalse _ => simp [catalogKeys]

/-! ### Concrete evaluations -/

theorem scores_party : all_category_scores "Company holiday party" "" "" =
    [("meeting", 0), ("exam_study", 0), ("travel", 11), ("project", 0),
     ("presentation", 0), ("appointment", 0), ("social_event", 60)] := by decide

theorem scores_exam : all_category_scores "Final exam review" "comprehensive final" "" =
    [("meeting", 13), ("exam_study", 141), ("travel", 0), ("project", 5),
     ("presentation", 0), ("appointment", 5), ("social_event", 0)] := by decide

theorem scores_xyzzy : all_category_scores "xyzzy plugh" "" "" =
    [("meeting", 0), ("exam_study", 0), ("travel", 0), ("project", 0),
     ("presentation", 0), ("appointment", 0), ("social_event", 0)] := by decide

theorem classify_party_eval : classify_event_type "Company holiday party" "" "" =
    ⟨"social_event", 6000/71,
      [("meeting", 0), ("exam_study", 0), ("travel", 11), ("project", 0),
       ("presentation", 0), ("appointment", 0), ("social_event", 60)]⟩ := by
  unfold classify_event_type
  dsimp only
  rw [scores_party]
  have hb : bestCategory
      [("meeting", 0), ("exam_study", 0), ("travel", 11), ("project", 0),
       ("presentation", 0), ("appointment", 0), ("social_event", 60)] =
      ("social_event", 60) := by decide
  have hs : (([("meeting", 0), ("exam_study", 0), ("travel", 11), ("project", 0),
      ("presentation", 0), ("appointment", 0), ("social_event", 60)] :
        List (String × ℕ)).map Prod.snd).sum = 71 := by decide
  rw [hb, hs]
  have hc : rawConfidence 60 71 = 6000/71 := by
    unfold rawConfidence
    norm_num
  rw [hc]
  rw [if_neg (by norm_num : ¬ (6000/71 : ℚ) < 30)]
  have : min ((6000:ℚ)/71) 95 = 6000/71 := min_eq_left (by norm_num)
  rw [ClassificationResult.mk.injEq]
  exact ⟨rfl, this, rfl⟩

theorem classify_exam_eval : (classify_event_type "Final exam review" "comprehensive final" "").type =
    "exam_study" := by
  unfold classify_event_type
  dsimp only
  rw [scores_exam]
  have hb : bestCategory
      [("meeting", 13), ("exam_study", 141), ("travel", 0), ("project", 5),
       ("presentation", 0), ("appointment", 5), ("social_event", 0)] =
      ("exam_study", 141) := by decide
  have hs : (([("meeting", 13), ("exam_study", 141), ("travel", 0), ("project", 5),
      ("presentation", 0), ("appointment", 5), ("social_event", 0)] :
        List (String × ℕ)).map Prod.snd).sum = 164 := by decide
  rw [hb, hs]
  have hc : rawConfidence 141 164 = 3525/41 := by
    unfold rawConfidence
    norm_num
  rw [hc]
  rw [if_neg (by norm_num : ¬ (3525/41 : ℚ) < 30)]

theorem classify_xyzzy_eval : (classify_event_type "xyzzy plugh" "" "").type = "meeting" ∧
    (classify_event_type "xyzzy plugh" "" "").confidence = 50 := by
  unfold classify_event_type
  dsimp only
  rw [scores_xyzzy]
  have hb : bestCategory
      [("meeting", 0), ("exam_study", 0), ("travel", 0), ("project", 0),
       ("presentation", 0), ("appointment", 0), ("social_event", 0)] =
      ("meeting", 0) := by decide
  have hs : (([("meeting", 0), ("exam_study", 0), ("travel", 0), ("project", 0),
      ("presentation", 0), ("appointment", 0), ("social_event", 0)] :
        List (String × ℕ)).map Prod.snd).sum = 0 := by decide
  rw [hb, hs]
  have hc : rawConfidence 0 0 = 50 := by
    unfold rawConfidence
    norm_num
  rw [hc]
  rw [if_neg (by norm_num : ¬ (50 : ℚ) < 30)]
  exact ⟨rfl, min_eq_left (by norm_num)⟩

theorem duration_party : event_duration_hours partyEvent = 4 := by
  unfold event_duration_hours partyEvent
  norm_num

theorem duration_exam : event_duration_hours examEvent = 3 := by
  unfold event_duration_hours examEvent
  norm_num

theorem complexity_party_eval : event_complexity partyEvent = ⟨1, [], "low"⟩ := by
  unfold event_complexity
  rw [duration_party]
  have h1 : (location_complexity_words.any fun w =>
      containsSub (lowerStr partyEvent.location) (strCodes w)) = false := by decide
  have h2 : highHits (analysisText partyEvent.title partyEvent.description
      partyEvent.location) = [] := by decide
  have h3 : stakeholderCount (analysisText partyEvent.title partyEvent.description
      partyEvent.location) = 0 := by decide
  unfold analyze_event_complexity
  dsimp only
  rw [h1, h2, h3]
  norm_num [get_complexity_category]

theorem complexity_exam_score : (event_complexity examEvent).score = 6/5 := by
  unfold event_complexity
  rw [duration_exam]
  have h1 : (location_complexity_words.any fun w =>
      containsSub (lowerStr examEvent.location) (strCodes w)) = false := by decide
  have h2 : highHits (analysisText examEvent.title examEvent.description
      examEvent.location) = ["final"] := by decide
  have h3 : stakeholderCount (analysisText examEvent.title examEvent.description
      examEvent.location) = 0 := by decide
  unfold analyze_event_complexity
  dsimp only
  rw [h1, h2, h3]
  norm_num

theorem complexity_exam_category : (event_complexity examEvent).category = "low" := by
  unfold event_complexity
  rw [duration_exam]
  have h1 : (location_complexity_words.any fun w =>
      containsSub (lowerStr examEvent.location) (strCodes w)) = false := by decide
  have h2 : highHits (analysisText examEvent.title examEvent.description
      examEvent.location) = ["final"] := by decide
  have h3 : stakeholderCount (analysisText examEvent.title examEvent.description
      examEvent.location) = 0 := by decide
  unfold analyze_event_complexity
  dsimp only
  rw [h1, h2, h3]
  norm_num [get_complexity_category]

theorem classification_party : event_classification partyEvent =
    ⟨"social_event", 6000/71,
      [("meeting", 0), ("exam_study", 0), ("travel", 11), ("project", 0),
       ("presentation", 0), ("appointment", 0), ("social_event", 60)]⟩ :=
  classify_party_eval

theorem classification_exam_type : (event_classification examEvent).type = "exam_study" :=
  classify_exam_eval

theorem resolved_party : resolved_event_type partyEvent = "social_event" := by
  unfold resolved_event_type
  rw [classification_party]
  dsimp only
  rw [if_pos (by decide : isCatalogCategory "social_event" = true)]

theorem resolved_exam : resolved_event_type examEvent = "exam_study" := by
  unfold resolved_event_type
  rw [classification_exam_type]
  rw [if_pos (by decide : isCatalogCategory "exam_study" = true)]

theorem getConfig_social : getConfig "social_event" = socialEventConfig := rfl

theorem getConfig_exam : getConfig "exam_study" = examStudyConfig := rfl

theorem gift_mem : mkSuggestion partyEvent giftTemplate ∈ generate_task_suggestions partyEvent := by
  rw [mem_generate_iff]
  refine ⟨giftTemplate, ?_, ?_, rfl⟩
  · rw [resolved_party, getConfig_social]
    simp [socialEventConfig, giftTemplate]
  · rw [complexity_party_eval]
    dsimp only
    norm_num [giftTemplate]

theorem party_relations_before :
    (generate_task_suggestions partyEvent).all (fun s => s.relation == "before") = true := by
  rw [List.all_eq_true]
  intro s hs
  rw [mem_generate_iff] at hs
  obtain ⟨tpl, htpl, hc, rfl⟩ := hs
  rw [resolved_party, getConfig_social] at htpl
  rw [complexity_party_eval] at hc
  dsimp only at hc
  simp only [socialEventConfig, List.mem_cons, List.not_mem_nil, or_false] at htpl
  rcases htpl with rfl | rfl | rfl | rfl | rfl | rfl
  · decide
  · decide
  · decide
  · norm_num at hc
  · decide
  · norm_num at hc

theorem party_suggestion_count : (generate_task_suggestions partyEvent).length = 4 := by
  unfold generate_task_suggestions
  rw [(List.perm_insertionSort schedLE _).length_eq]
  rw [resolved_party, getConfig_social]
  simp only [socialEventConfig, complexity_party_eval]
  norm_num [List.filterMap_cons]

/-! ### Claim theorems -/

/-- C1 (counterexample): at `title="xyzzy plugh"`, `description=""`,
`location=""`, every category score is zero, yet `classify_event_type`
returns the category "meeting" (the first catalog key) — not the generic
fallback "general" the claim requires — with confidence exactly 50. -/
theorem zero_signal_not_general :
    (all_category_scores "xyzzy plugh" "" "").all (fun p => p.2 == 0) = true ∧
      (classify_event_type "xyzzy plugh" "" "").type ≠ "general" ∧
      (classify_event_type "xyzzy plugh" "" "").confidence = 50 := by
  refine ⟨by decide, ?_, classify_xyzzy_eval.2⟩
  rw [classify_xyzzy_eval.1]
  decide

/-- C1 (amended): for every input on which every catalog category scores
zero (none of the catalog's keywords or patterns occurs),
`classify_event_type` returns confidence exactly 50 and the category
"meeting" — the first catalog key, not the generic fallback — because the
zero-signal path assigns confidence 50 and the `< 30` fallback to "general"
therefore never fires. -/
theorem zero_signal_classification (title description location : String)
    (h : ∀ nc ∈ EVENT_CATEGORIES, categoryScore title description location nc = 0) :
    (classify_event_type title description location).type = "meeting" ∧
      (classify_event_type title description location).confidence = 50 := by
  have hmap : EVENT_CATEGORIES.map
      (fun nc => (nc.1, categoryScore title description location nc)) =
      EVENT_CATEGORIES.map (fun nc => (nc.1, (0 : ℕ))) :=
    List.map_congr_left (fun nc hnc => by rw [h nc hnc])
  have hs : all_category_scores title description location =
      [("meeting", 0), ("exam_study", 0), ("travel", 0), ("project", 0),
       ("presentation", 0), ("appointment", 0), ("social_event", 0)] := by
    unfold all_category_scores
    rw [hmap]
    rfl
  unfold classify_event_type
  dsimp only
  rw [hs]
  have hb : bestCategory
      [("meeting", 0), ("exam_study", 0), ("travel", 0), ("project", 0),
       ("presentation", 0), ("appointment", 0), ("social_event", 0)] =
      ("meeting", 0) := by decide
  have hsum : (([("meeting", 0), ("exam_study", 0), ("travel", 0), ("project", 0),
      ("presentation", 0), ("appointment", 0), ("social_event", 0)] :
        List (String × ℕ)).map Prod.snd).sum = 0 := by decide
  rw [hb, hsum]
  have hc : rawConfidence 0 0 = 50 := by
    unfold rawConfidence
    norm_num
  rw [hc]
  rw [if_neg (by norm_num : ¬ (50 : ℚ) < 30)]
  exact ⟨rfl, min_eq_left (by norm_num)⟩

/-- C1 (witness): the input `("xyzzy plugh", "", "")` satisfies the
zero-score hypothesis and exhibits the amended behavior. -/
theorem zero_signal_classification_witness :
    (∀ nc ∈ EVENT_CATEGORIES, categoryScore "xyzzy plugh" "" "" nc = 0) ∧
      ((classify_event_type "xyzzy plugh" "" "").type = "meeting" ∧
        (classify_event_type "xyzzy plugh" "" "").confidence = 50) :=
  ⟨by decide, zero_signal_classification "xyzzy plugh" "" "" (by decide)⟩

/-- C2 (code bug): for a 10-hour event the duration factor applied is 1.5
("long duration"), not the 2.0 the `elif duration_hours > 8` branch
intends — that branch is dead because `duration_hours > 4` is tested
first. -/
theorem duration_factor_dead_branch :
    (analyze_event_complexity "" "" "" 10).score = 3/2 ∧
      (analyze_event_complexity "" "" "" 10).factors = ["long duration"] ∧
      ((3 : ℚ)/2 ≠ 2) := by
  have h1 : (location_complexity_words.any fun w =>
      containsSub (lowerStr "") (strCodes w)) = false := by decide
  have h2 : highHits (analysisText "" "" "") = [] := by decide
  have h3 : stakeholderCount (analysisText "" "" "") = 0 := by decide
  unfold analyze_event_complexity
  dsimp only
  rw [h1, h2, h3]
  norm_num

/-- C3: every suggestion emitted by `generate_task_suggestions` has an
integer confidence in [0, 95], and the classification confidence is in
[0, 95] — specifically it is exactly 50 or at least 30. -/
theorem confidence_bounds (e : Event) (s : TaskSuggestion)
    (hs : s ∈ generate_task_suggestions e) :
    (0 ≤ s.confidence ∧ s.confidence ≤ 95) ∧
      (0 ≤ (event_classification e).confidence ∧
        (event_classification e).confidence ≤ 95 ∧
        ((event_classification e).confidence = 50 ∨
          30 ≤ (event_classification e).confidence)) := by
  constructor
  · rw [mem_generate_iff] at hs
    obtain ⟨tpl, htpl, _, rfl⟩ := hs
    exact mkSuggestion_confidence_bounds e tpl (good_getConfig _ tpl htpl).1
  · exact classify_confidence_bounds e.title e.description e.location

/-- C3 (witness): the bounds at the concrete party event and its gift
suggestion. -/
theorem confidence_bounds_witness :
    (0 ≤ (mkSuggestion partyEvent giftTemplate).confidence ∧
      (mkSuggestion partyEvent giftTemplate).confidence ≤ 95) ∧
      (0 ≤ (event_classification partyEvent).confidence ∧
        (event_classification partyEvent).confidence ≤ 95 ∧
        ((event_classification partyEvent).confidence = 50 ∨
          30 ≤ (event_classification partyEvent).confidence)) :=
  confidence_bounds partyEvent (mkSuggestion partyEvent giftTemplate) gift_mem

/-- C4: the suggestion list returned by `generate_task_suggestions` is
non-decreasing in `scheduled_time`. -/
theorem suggestions_sorted (e : Event) :
    List.Pairwise (fun a b : TaskSuggestion => a.scheduled_time ≤ b.scheduled_time)
      (generate_task_suggestions e) := by
  unfold generate_task_suggestions
  exact List.sorted_insertionSort schedLE _

/-- C5: if a template's `complexity_multiplier * complexity.score` falls
below 0.5, no suggestion derived from it (equivalently, none carrying its
multiplier as `complexity_factor`) appears in the output. -/
theorem template_suppression (e : Event) (tpl : TaskTemplate)
    (_ht : tpl ∈ (getConfig (resolved_event_type e)).tasks)
    (hlt : tpl.complexity_multiplier * (event_complexity e).score < 1/2)
    (s : TaskSuggestion) (hs : s ∈ generate_task_suggestions e) :
    s.complexity_factor ≠ tpl.complexity_multiplier := by
  rw [mem_generate_iff] at hs
  obtain ⟨tpl2, htpl2, hc2, rfl⟩ := hs
  intro heq
  have hfac : (mkSuggestion e tpl2).complexity_factor = tpl2.complexity_multiplier := rfl
  rw [hfac] at heq
  rw [heq] at hc2
  exact hc2 hlt

/-- C5 (witness): at the party event the thank-you template (multiplier
0.2, suppressed at complexity 1.0) yields no suggestion; in particular the
emitted gift suggestion does not carry its multiplier. -/
theorem template_suppression_witness :
    (mkSuggestion partyEvent giftTemplate).complexity_factor ≠
      thankYouTemplate.complexity_multiplier :=
  template_suppression partyEvent thankYouTemplate
    (by rw [resolved_party, getConfig_social]; simp [socialEventConfig, thankYouTemplate])
    (by rw [complexity_party_eval]; norm_num [thankYouTemplate])
    (mkSuggestion partyEvent giftTemplate) gift_mem

/-- C6: every emitted suggestion follows the scheduling rule of its
template: `days_after` set gives `end_time + days_after` with relation
"after"; otherwise `days_before` set gives `start_time - days_before` with
relation "before"; otherwise `start_time - total_prep_days *
complexity_multiplier` with relation "before", where `total_prep_days =
floor(base_prep_days * complexity.score)`. -/
theorem scheduling_rules (e : Event) (s : TaskSuggestion)
    (hs : s ∈ generate_task_suggestions e) :
    ∃ tpl ∈ (getConfig (resolved_event_type e)).tasks,
      s.complexity_factor = tpl.complexity_multiplier ∧
      (∀ d : ℕ, tpl.days_after = some d →
        s.scheduled_time = e.end_time + d ∧ s.relation = "after") ∧
      (tpl.days_after = none → ∀ d : ℕ, tpl.days_before = some d →
        s.scheduled_time = e.start_time - d ∧ s.relation = "before") ∧
      (tpl.days_after = none → tpl.days_before = none →
        s.scheduled_time = e.start_time -
          (total_prep_days e : ℚ) * tpl.complexity_multiplier ∧
        s.relation = "before") := by
  rw [mem_generate_iff] at hs
  obtain ⟨tpl, htpl, _, rfl⟩ := hs
  obtain ⟨_, hda, hdb⟩ := good_getConfig _ tpl htpl
  refine ⟨tpl, htpl, rfl, ?_, ?_, ?_⟩
  · intro dd hdd
    have hdd0 : dd ≠ 0 := by rw [hdd] at hda; simpa using hda
    constructor <;> simp [mkSuggestion, truthy, hdd, hdd0]
  · intro hna dd hdd
    have hdd0 : dd ≠ 0 := by rw [hdd] at hdb; simpa using hdb
    constructor <;> simp [mkSuggestion, truthy, hna, hdd, hdd0]
  · intro hna hnb
    constructor <;> simp [mkSuggestion, truthy, hna, hnb]

/-- C6 (witness): the scheduling rule at the concrete party event and its
gift suggestion. -/
theorem scheduling_rules_witness :
    ∃ tpl ∈ (getConfig (resolved_event_type partyEvent)).tasks,
      (mkSuggestion partyEvent giftTemplate).complexity_factor = tpl.complexity_multiplier ∧
      (∀ d : ℕ, tpl.days_after = some d →
        (mkSuggestion partyEvent giftTemplate).scheduled_time = partyEvent.end_time + d ∧
        (mkSuggestion partyEvent giftTemplate).relation = "after") ∧
      (tpl.days_after = none → ∀ d : ℕ, tpl.days_before = some d →
        (mkSuggestion partyEvent giftTemplate).scheduled_time = partyEvent.start_time - d ∧
        (mkSuggestion partyEvent giftTemplate).relation = "before") ∧
      (tpl.days_after = none → tpl.days_before = none →
        (mkSuggestion partyEvent giftTemplate).scheduled_time = partyEvent.start_time -
          (total_prep_days partyEvent : ℚ) * tpl.complexity_multiplier ∧
        (mkSuggestion partyEvent giftTemplate).relation = "before") :=
  scheduling_rules partyEvent (mkSuggestion partyEvent giftTemplate) gift_mem

/-- C7: for every input — including zero or negative durations — the
complexity score lies in [1, 3]. -/
theorem complexity_bounds_claim (t d l : String) (dh : ℚ) :
    1 ≤ (analyze_event_complexity t d l dh).score ∧
      (analyze_event_complexity t d l dh).score ≤ 3 :=
  complexity_score_bounds t d l dh

/-- C8 (counterexample): on `title="Final exam review"`,
`description="comprehensive final"`, duration 3 hours, the complexity tier
is "low" (score 1.2: only "final" is in the analyzer's high-priority word
list, and 1.2 < 1.3), not "high" as the claim states. -/
theorem exam_tier_not_high :
    (analyze_event_complexity "Final exam review" "comprehensive final" "" 3).category = "low" ∧
      ("low" : String) ≠ "high" := by
  refine ⟨?_, by decide⟩
  have h1 : (location_complexity_words.any fun w =>
      containsSub (lowerStr "") (strCodes w)) = false := by decide
  have h2 : highHits (analysisText "Final exam review" "comprehensive final" "") =
      ["final"] := by decide
  have h3 : stakeholderCount (analysisText "Final exam review" "comprehensive final" "") =
      0 := by decide
  unfold analyze_event_complexity
  dsimp only
  rw [h1, h2, h3]
  norm_num [get_complexity_category]

/-- C8 (amended): the scenario classifies as "exam_study" and the
preparation window scales to 8 days, above the 7-day base, but the
complexity tier is "low" (score 6/5), not "high". -/
theorem exam_scenario_amended :
    (classify_event_type "Final exam review" "comprehensive final" "").type = "exam_study" ∧
      (event_complexity examEvent).category = "low" ∧
      (event_complexity examEvent).score = 6/5 ∧
      total_prep_days examEvent = 8 ∧ (7 : ℤ) < 8 := by
  refine ⟨classify_exam_eval, complexity_exam_category, complexity_exam_score, ?_, by norm_num⟩
  unfold total_prep_days
  rw [resolved_exam, getConfig_exam, complexity_exam_score]
  norm_num [examStudyConfig]

/-- C9 (counterexample): the party scenario classifies as "social_event",
but every emitted suggestion has relation "before" — the `days_after`
thank-you template (multiplier 0.2) is suppressed by the 0.5 threshold at
complexity 1.0, so no "after" suggestion exists. -/
theorem party_no_after_suggestion :
    (event_classification partyEvent).type = "social_event" ∧
      (generate_task_suggestions partyEvent).all (fun s => s.relation == "before") = true := by
  refine ⟨?_, party_relations_before⟩
  rw [classification_party]

/-- C9 (amended): the party scenario classifies as "social_event" and emits
exactly four suggestions, all with relation "before"; the thank-you
follow-up is suppressed by the complexity threshold. -/
theorem party_scenario_amended :
    (event_classification partyEvent).type = "social_event" ∧
      (generate_task_suggestions partyEvent).length = 4 ∧
      (generate_task_suggestions partyEvent).all (fun s => s.relation == "before") = true :=
  ⟨by rw [classification_party], party_suggestion_count, party_relations_before⟩

/-- C10: every emitted suggestion's category is one of the seven catalog
keys and never the classifier's fallback label "general". -/
theorem suggestion_category_catalog (e : Event) (s : TaskSuggestion)
    (hs : s ∈ generate_task_suggestions e) :
    s.category ∈ catalogKeys ∧ s.category ≠ "general" := by
  rw [mem_generate_iff] at hs
  obtain ⟨tpl, _, _, rfl⟩ := hs
  have hcat : (mkSuggestion e tpl).category = resolved_event_type e := by
    unfold mkSuggestion
    dsimp only
  rw [hcat]
  refine ⟨resolved_mem e, ?_⟩
  have hgen : ∀ x ∈ catalogKeys, x ≠ "general" := by decide
  exact hgen _ (resolved_mem e)

/-- C10 (witness): the catalog-category invariant at the concrete party
event and its gift suggestion. -/
theorem suggestion_category_catalog_witness :
    (mkSuggestion partyEvent giftTemplate).category ∈ catalogKeys ∧
      (mkSuggestion partyEvent giftTemplate).category ≠ "general" :=
  suggestion_category_catalog partyEvent (mkSuggestion partyEvent giftTemplate) gift_mem

end OhTaskMe
